import Mathlib

set_option maxRecDepth 4000

namespace MsqlSrv

/-! Shallow embedding of mjgarton/msql-srv (src/lib.rs, src/tls.rs).

Byte strings are `List Nat` (each element a byte value < 256); decoded text is
`List Nat` of Unicode scalar values.  The repository's `HashMap`s are modelled
as association lists with unique keys.  Modules of the repository that are not
under src (packet.rs, commands.rs, params.rs, resultset.rs, writers.rs,
errorcodes.rs) are modelled from the spec where a claim needs them; each such
definition is marked in its doc comment. -/

/-- Association-list lookup, modelling `HashMap::get` on the statement table
(`src/lib.rs`, `stmts: HashMap<u32, _>`). -/
def alLookup {α : Type} : List (Nat × α) → Nat → Option α
  | [], _ => none
  | (k, v) :: t, k0 => if k = k0 then some v else alLookup t k0

/-- Association-list insert-or-update, modelling `HashMap::insert` /
updating through `get_mut`. -/
def alInsert {α : Type} : List (Nat × α) → Nat → α → List (Nat × α)
  | [], k0, v0 => [(k0, v0)]
  | (k, v) :: t, k0, v0 => if k = k0 then (k0, v0) :: t else (k, v) :: alInsert t k0 v0

/-- Association-list removal, modelling `HashMap::remove`
(`stmts.remove(&stmt)` in the `Command::Close` arm, src/lib.rs:470). -/
def alRemove {α : Type} : List (Nat × α) → Nat → List (Nat × α)
  | [], _ => []
  | (k, v) :: t, k0 => if k = k0 then t else (k, v) :: alRemove t k0

/-- Accumulation of a SEND_LONG_DATA fragment:
`long_data.entry(param).or_insert_with(Vec::new).extend(data)`
(src/lib.rs:462-466). -/
def ldExtend (ld : List (Nat × List Nat)) (param : Nat) (data : List Nat) :
    List (Nat × List Nat) :=
  match alLookup ld param with
  | some old => alInsert ld param (old ++ data)
  | none => ld ++ [(param, data)]

/-- The MySQL column type enumeration (`myc::constants::ColumnType`,
re-exported by src/lib.rs; the numeric codes are the MySQL wire constants). -/
inductive ColumnType
  | MYSQL_TYPE_DECIMAL
  | MYSQL_TYPE_TINY
  | MYSQL_TYPE_SHORT
  | MYSQL_TYPE_LONG
  | MYSQL_TYPE_FLOAT
  | MYSQL_TYPE_DOUBLE
  | MYSQL_TYPE_NULL
  | MYSQL_TYPE_TIMESTAMP
  | MYSQL_TYPE_LONGLONG
  | MYSQL_TYPE_INT24
  | MYSQL_TYPE_DATE
  | MYSQL_TYPE_TIME
  | MYSQL_TYPE_DATETIME
  | MYSQL_TYPE_YEAR
  | MYSQL_TYPE_VARCHAR
  | MYSQL_TYPE_BIT
  | MYSQL_TYPE_NEWDECIMAL
  | MYSQL_TYPE_ENUM
  | MYSQL_TYPE_SET
  | MYSQL_TYPE_TINY_BLOB
  | MYSQL_TYPE_MEDIUM_BLOB
  | MYSQL_TYPE_LONG_BLOB
  | MYSQL_TYPE_BLOB
  | MYSQL_TYPE_VAR_STRING
  | MYSQL_TYPE_STRING
  | MYSQL_TYPE_GEOMETRY
  deriving DecidableEq

/-- Wire byte to column type (MySQL protocol constants; used by the
spec-modelled EXECUTE payload parser). -/
def byteToColumnType (b : Nat) : Option ColumnType :=
  if b = 0 then some .MYSQL_TYPE_DECIMAL
  else if b = 1 then some .MYSQL_TYPE_TINY
  else if b = 2 then some .MYSQL_TYPE_SHORT
  else if b = 3 then some .MYSQL_TYPE_LONG
  else if b = 4 then some .MYSQL_TYPE_FLOAT
  else if b = 5 then some .MYSQL_TYPE_DOUBLE
  else if b = 6 then some .MYSQL_TYPE_NULL
  else if b = 7 then some .MYSQL_TYPE_TIMESTAMP
  else if b = 8 then some .MYSQL_TYPE_LONGLONG
  else if b = 9 then some .MYSQL_TYPE_INT24
  else if b = 10 then some .MYSQL_TYPE_DATE
  else if b = 11 then some .MYSQL_TYPE_TIME
  else if b = 12 then some .MYSQL_TYPE_DATETIME
  else if b = 13 then some .MYSQL_TYPE_YEAR
  else if b = 15 then some .MYSQL_TYPE_VARCHAR
  else if b = 16 then some .MYSQL_TYPE_BIT
  else if b = 246 then some .MYSQL_TYPE_NEWDECIMAL
  else if b = 247 then some .MYSQL_TYPE_ENUM
  else if b = 248 then some .MYSQL_TYPE_SET
  else if b = 249 then some .MYSQL_TYPE_TINY_BLOB
  else if b = 250 then some .MYSQL_TYPE_MEDIUM_BLOB
  else if b = 251 then some .MYSQL_TYPE_LONG_BLOB
  else if b = 252 then some .MYSQL_TYPE_BLOB
  else if b = 253 then some .MYSQL_TYPE_VAR_STRING
  else if b = 254 then some .MYSQL_TYPE_STRING
  else if b = 255 then some .MYSQL_TYPE_GEOMETRY
  else none

/-- Column meta-information (`struct Column`, src/lib.rs:121-136).
`colflags` is the `ColumnFlags` bitset as a natural number;
`UNSIGNED_FLAG = 32`. -/
structure Column where
  table : String
  column : String
  coltype : ColumnType
  colflags : Nat
  deriving DecidableEq

/-- The `ColumnFlags::UNSIGNED_FLAG` bit (mysql wire constant 1 <<< 5). -/
def UNSIGNED_FLAG : Nat := 32

/-- Per-statement server-side state (`struct StatementData`, src/lib.rs:225-230). -/
structure StatementData where
  long_data : List (Nat × List Nat)
  bound_types : List (ColumnType × Bool)
  params : Nat
  deriving DecidableEq

/-- Errors of the spec-modelled EXECUTE payload parser. -/
inductive PErr
  | tooShort
  | badIterationCount
  | missingTypes
  | unknownType
  | unexpectedEnd
  | badLenenc
  deriving DecidableEq

/-- A decoded prepared-statement parameter value, as presented to the
backend's on_execute callback. -/
inductive ParamValue
  | null
  | int (v : Int)
  | uint (v : Nat)
  | bytes (coltype : ColumnType) (data : List Nat)
  deriving DecidableEq

/-- MySQL error codes used by src/lib.rs (errorcodes.rs is not under src;
modelled from the spec's error-kind names). -/
inductive ErrorKind
  | ER_ACCESS_DENIED_ERROR
  deriving DecidableEq

/-- Little-endian byte list to natural number. -/
def leNat (bs : List Nat) : Nat := bs.foldr (fun b acc => b + 256 * acc) 0

/-- Two's-complement reading of a `bits`-wide little-endian value. -/
def toSigned (bits : Nat) (v : Nat) : Int :=
  if v < 2 ^ (bits - 1) then (v : Int) else (v : Int) - (2 : Int) ^ bits

/-- Take exactly `n` bytes or fail. -/
def takeN (n : Nat) (bs : List Nat) : Except PErr (List Nat × List Nat) :=
  if bs.length < n then .error .unexpectedEnd else .ok (bs.take n, bs.drop n)

/-- Modelled from the spec (section 4.2): length-encoded string, a lenenc-int
length followed by that many bytes; first byte 0xFB (NULL sentinel) and 0xFF
are illegal in this position. -/
def readLenencBytes (bs : List Nat) : Except PErr (List Nat × List Nat) :=
  match bs with
  | [] => .error .unexpectedEnd
  | b :: r =>
    if b ≤ 250 then takeN b r
    else if b = 252 then
      match r with
      | x :: y :: r2 => takeN (x + 256 * y) r2
      | _ => .error .unexpectedEnd
    else if b = 253 then
      match r with
      | x :: y :: z :: r2 => takeN (x + 256 * y + 65536 * z) r2
      | _ => .error .unexpectedEnd
    else if b = 254 then
      match r with
      | x0 :: x1 :: x2 :: x3 :: x4 :: x5 :: x6 :: x7 :: r2 =>
        takeN (leNat [x0, x1, x2, x3, x4, x5, x6, x7]) r2
      | _ => .error .unexpectedEnd
    else .error .badLenenc

/-- Modelled from the spec (section 4.4): the `param_count` pairs of
(1B column_type, 1B unsigned flag) read when new-params-bound is set. -/
def readTypes : Nat → List Nat → Except PErr (List (ColumnType × Bool) × List Nat)
  | 0, bs => .ok ([], bs)
  | n + 1, t :: u :: bs =>
    match byteToColumnType t with
    | some ct =>
      match readTypes n bs with
      | .ok (ts, rest) => .ok ((ct, u != 0) :: ts, rest)
      | .error e => .error e
    | none => .error .unknownType
  | _ + 1, _ => .error .unexpectedEnd

/-- Bit `i` of the EXECUTE null bitmap (no bit offset for parameters). -/
def nullBit (nullmap : List Nat) (i : Nat) : Bool :=
  match nullmap.get? (i / 8) with
  | some b => (b / 2 ^ (i % 8)) % 2 == 1
  | none => false

/-- Modelled from the spec (section 4.2): the type-directed inline binary
decoders, mirrors of the binary row encoding.  Int types give signed or
unsigned values per the bound unsigned flag; float/double and the packed
date/time forms are kept as their raw byte spans; string-like types are
length-encoded strings. -/
def decodeBinValue (t : ColumnType) (uns : Bool) (bs : List Nat) :
    Except PErr (ParamValue × List Nat) :=
  let fixedInt (w : Nat) : Except PErr (ParamValue × List Nat) :=
    match takeN w bs with
    | .ok (v, rest) =>
      .ok (if uns then .uint (leNat v) else .int (toSigned (8 * w) (leNat v)), rest)
    | .error e => .error e
  let fixedRaw (w : Nat) : Except PErr (ParamValue × List Nat) :=
    match takeN w bs with
    | .ok (v, rest) => .ok (.bytes t v, rest)
    | .error e => .error e
  let lenencStr : Except PErr (ParamValue × List Nat) :=
    match readLenencBytes bs with
    | .ok (v, rest) => .ok (.bytes t v, rest)
    | .error e => .error e
  let packed : Except PErr (ParamValue × List Nat) :=
    match bs with
    | n :: r =>
      match takeN n r with
      | .ok (v, rest) => .ok (.bytes t v, rest)
      | .error e => .error e
    | [] => .error .unexpectedEnd
  match t with
  | .MYSQL_TYPE_TINY => fixedInt 1
  | .MYSQL_TYPE_SHORT => fixedInt 2
  | .MYSQL_TYPE_YEAR => fixedInt 2
  | .MYSQL_TYPE_LONG => fixedInt 4
  | .MYSQL_TYPE_INT24 => fixedInt 4
  | .MYSQL_TYPE_LONGLONG => fixedInt 8
  | .MYSQL_TYPE_FLOAT => fixedRaw 4
  | .MYSQL_TYPE_DOUBLE => fixedRaw 8
  | .MYSQL_TYPE_NULL => .ok (.null, bs)
  | .MYSQL_TYPE_DATE => packed
  | .MYSQL_TYPE_DATETIME => packed
  | .MYSQL_TYPE_TIMESTAMP => packed
  | .MYSQL_TYPE_TIME => packed
  | .MYSQL_TYPE_DECIMAL => lenencStr
  | .MYSQL_TYPE_NEWDECIMAL => lenencStr
  | .MYSQL_TYPE_VARCHAR => lenencStr
  | .MYSQL_TYPE_VAR_STRING => lenencStr
  | .MYSQL_TYPE_STRING => lenencStr
  | .MYSQL_TYPE_BLOB => lenencStr
  | .MYSQL_TYPE_TINY_BLOB => lenencStr
  | .MYSQL_TYPE_MEDIUM_BLOB => lenencStr
  | .MYSQL_TYPE_LONG_BLOB => lenencStr
  | .MYSQL_TYPE_ENUM => lenencStr
  | .MYSQL_TYPE_SET => lenencStr
  | .MYSQL_TYPE_BIT => lenencStr
  | .MYSQL_TYPE_GEOMETRY => lenencStr

/-- Modelled from the spec (section 4.4): decode the parameters in order.
For parameter `i`: NULL if bit `i` of the null bitmap is set; else the
accumulated `long_data[i]` buffer as raw bytes, bypassing inline decoding;
else the inline binary decoder for the bound type. -/
def decodeParams (ld : List (Nat × List Nat)) (nullmap : List Nat) :
    List (ColumnType × Bool) → Nat → List Nat → Except PErr (List ParamValue × List Nat)
  | [], _, bs => .ok ([], bs)
  | (t, uns) :: ts, idx, bs =>
    if nullBit nullmap idx then
      match decodeParams ld nullmap ts (idx + 1) bs with
      | .ok (vs, rest) => .ok (.null :: vs, rest)
      | .error e => .error e
    else
      match alLookup ld idx with
      | some buf =>
        match decodeParams ld nullmap ts (idx + 1) bs with
        | .ok (vs, rest) => .ok (.bytes t buf :: vs, rest)
        | .error e => .error e
      | none =>
        match decodeBinValue t uns bs with
        | .ok (v, bs2) =>
          match decodeParams ld nullmap ts (idx + 1) bs2 with
          | .ok (vs, rest) => .ok (v :: vs, rest)
          | .error e => .error e
        | .error e => .error e

/-- Modelled from the spec (section 4.4; params.rs is not under src): parse
the EXECUTE payload that follows the 4-byte statement id — 1B flags, 4B
iteration count (must be 1), the null bitmap of ceil(param_count/8) bytes,
the 1B new-params-bound flag, and if that flag is set the type table followed
by the inline values.  Returns the decoded parameter values together with the
effective bound-types table (replaced when new-params-bound is set, reused
otherwise; absent reused types are a protocol error). -/
def parseParams (pc : Nat) (bt : List (ColumnType × Bool)) (ld : List (Nat × List Nat))
    (bs : List Nat) : Except PErr (List ParamValue × List (ColumnType × Bool)) :=
  match bs with
  | _flags :: a :: b :: c :: d :: rest =>
    if a + 256 * b + 65536 * c + 16777216 * d ≠ 1 then .error .badIterationCount
    else
      match rest.drop ((pc + 7) / 8) with
      | npb :: rest2 =>
        if npb != 0 then
          match readTypes pc rest2 with
          | .ok (types, rest3) =>
            match decodeParams ld (rest.take ((pc + 7) / 8)) types 0 rest3 with
            | .ok (vals, _) => .ok (vals, types)
            | .error e => .error e
          | .error e => .error e
        else
          if pc ≠ 0 ∧ bt = [] then .error .missingTypes
          else
            match decodeParams ld (rest.take ((pc + 7) / 8)) bt 0 rest2 with
            | .ok (vals, _) => .ok (vals, bt)
            | .error e => .error e
      | [] => .error .tooShort
  | _ => .error .tooShort

/-- The new-params-bound flag byte of an EXECUTE payload (the byte after the
1B flags, 4B iteration count and the null bitmap). -/
def newParamsBound (pc : Nat) (bs : List Nat) : Bool :=
  match (bs.drop (5 + (pc + 7) / 8)).head? with
  | some b => b != 0
  | none => false

/-- UTF-8 continuation byte test. -/
def utf8Cont (b : Nat) : Bool := decide (128 ≤ b ∧ b < 192)

/-- Decode one UTF-8-encoded Unicode scalar value from the front of the byte
list, rejecting bare continuation bytes, overlong forms, surrogates and
values above U+10FFFF; returns the scalar and the remaining bytes.  A
successful step always consumes at least one byte. -/
def utf8DecodeOne : List Nat → Option (Nat × List Nat)
  | [] => none
  | b0 :: rest =>
    if b0 < 128 then some (b0, rest)
    else if b0 < 194 then none
    else if b0 < 224 then
      match rest with
      | b1 :: rest2 =>
        if utf8Cont b1 then some ((b0 - 192) * 64 + (b1 - 128), rest2) else none
      | [] => none
    else if b0 < 240 then
      match rest with
      | b1 :: b2 :: rest3 =>
        if (if b0 = 224 then decide (160 ≤ b1 ∧ b1 < 192)
            else if b0 = 237 then decide (128 ≤ b1 ∧ b1 < 160)
            else utf8Cont b1) && utf8Cont b2 then
          some ((b0 - 224) * 4096 + (b1 - 128) * 64 + (b2 - 128), rest3)
        else none
      | _ => none
    else if b0 < 245 then
      match rest with
      | b1 :: b2 :: b3 :: rest4 =>
        if (if b0 = 240 then decide (144 ≤ b1 ∧ b1 < 192)
            else if b0 = 244 then decide (128 ≤ b1 ∧ b1 < 144)
            else utf8Cont b1) && utf8Cont b2 && utf8Cont b3 then
          some ((b0 - 240) * 262144 + (b1 - 128) * 4096 + (b2 - 128) * 64 + (b3 - 128),
            rest4)
        else none
      | _ => none
    else none

/-- Fueled iteration of `utf8DecodeOne`.  Since a successful step consumes at
least one byte, fuel equal to the list length never runs out before the list
is exhausted. -/
def utf8DecodeAux : Nat → List Nat → Option (List Nat)
  | _, [] => some []
  | 0, _ :: _ => none
  | fuel + 1, b0 :: rest =>
    match utf8DecodeOne (b0 :: rest) with
    | none => none
    | some (c, r2) => (utf8DecodeAux fuel r2).map (fun cs => c :: cs)

/-- UTF-8 decoding to Unicode scalar values, the check performed by
`std::str::from_utf8` before on_query / on_prepare / on_init are invoked
(src/lib.rs:415, 422, 435, 487). -/
def utf8Decode (l : List Nat) : Option (List Nat) := utf8DecodeAux l.length l

/-- The Unicode White_Space property, the set trimmed by Rust's
`str::trim`. -/
def isRustWhitespace (c : Nat) : Bool :=
  decide (c = 9 ∨ c = 10 ∨ c = 11 ∨ c = 12 ∨ c = 13 ∨ c = 32 ∨ c = 133 ∨ c = 160 ∨
    c = 5760 ∨ (8192 ≤ c ∧ c ≤ 8202) ∨ c = 8232 ∨ c = 8233 ∨ c = 8239 ∨ c = 8287 ∨
    c = 12288)

/-- Drop the longest suffix satisfying `p`. -/
def dropTrailing (p : Nat → Bool) (l : List Nat) : List Nat :=
  (l.reverse.dropWhile p).reverse

/-- Rust `str::trim`. -/
def rustTrim (l : List Nat) : List Nat :=
  dropTrailing isRustWhitespace (l.dropWhile isRustWhitespace)

/-- Rust `str::trim_end_matches` with a char pattern: drop every trailing
occurrence. -/
def rustTrimEndMatches (c : Nat) (l : List Nat) : List Nat :=
  dropTrailing (fun x => x == c) l

/-- Rust `str::trim_matches` with a char pattern: drop every leading and
trailing occurrence. -/
def rustTrimMatches (c : Nat) (l : List Nat) : List Nat :=
  dropTrailing (fun x => x == c) (l.dropWhile (fun x => x == c))

/-- The schema-name processing of the USE interception
(`schema.trim().trim_end_matches(';').trim_matches('row')` with the backquote
character, src/lib.rs:417): trim whitespace, drop trailing semicolons (59),
strip surrounding backquotes (96). -/
def useSchema (cps : List Nat) : List Nat :=
  rustTrimMatches 96 (rustTrimEndMatches 59 (rustTrim cps))

/-- The bytes of "SELECT @@". -/
def bSelectAtAt : List Nat := [83, 69, 76, 69, 67, 84, 32, 64, 64]

/-- The bytes of "select @@". -/
def bselectAtAt : List Nat := [115, 101, 108, 101, 99, 116, 32, 64, 64]

/-- The bytes of "USE ". -/
def bUSE : List Nat := [85, 83, 69, 32]

/-- The bytes of "use ". -/
def buse : List Nat := [117, 115, 101, 32]

/-- The bytes of "max_allowed_packet". -/
def bMaxAllowedPacket : List Nat :=
  [109, 97, 120, 95, 97, 108, 108, 111, 119, 101, 100, 95, 112, 97, 99, 107, 101, 116]

/-- The parsed client commands (`commands::Command`; the constructors and
payload shapes are those matched on by src/lib.rs:390-498 and listed in
spec section 4.5). -/
inductive Command
  | query (q : List Nat)
  | prepare (q : List Nat)
  | execute (stmt : Nat) (params : List Nat)
  | sendLongData (stmt : Nat) (param : Nat) (data : List Nat)
  | close (stmt : Nat)
  | listFields (table : List Nat)
  | init (schema : List Nat)
  | ping
  | quit
  deriving DecidableEq

deriving instance DecidableEq for Except

/-- Packets the server writes to the client, at the granularity the claims
need (the byte-level encoders of writers.rs / resultset.rs are not under
src; modelled from spec section 4.8 as events). -/
inductive Packet
  | ok (affectedRows lastInsertId : Nat)
  | err (kind : ErrorKind) (msg : String)
  | resultSet (cols : List Column) (rows : List (List Nat))
  | completed (affectedRows lastInsertId : Nat)
  | columnDefs (cols : List Column)
  | greeting (sslAdvertised : Bool)
  deriving DecidableEq

/-- Observable events of a connection: packets written by the intermediary or
through a writer handle, the TLS switch, and backend callback invocations. -/
inductive Event
  | wrote (p : Packet)
  | switchedToTls
  | calledOnQuery (q : List Nat)
  | calledOnPrepare (q : List Nat)
  | calledOnExecute (stmt : Nat)
      (pr : Except PErr (List ParamValue × List (ColumnType × Bool)))
  | calledOnClose (stmt : Nat)
  | calledOnInit (schema : List Nat)
  deriving DecidableEq

/-- A backend (`MysqlShim` implementor).  Each callback returns its result
and the packets it wrote through its writer handle.  on_prepare returns
`some (stmt_id, param_count)` when it replied (StatementMetaWriter::reply
registers the statement, spec section 4.8), `none` when it did not
register one. -/
structure Shim where
  onQuery : List Nat → Except Unit Unit × List Packet
  onPrepare : List Nat → Except Unit (Option (Nat × Nat)) × List Packet
  onExecute : Nat → Except PErr (List ParamValue × List (ColumnType × Bool)) →
      Except Unit Unit × List Packet
  onInit : List Nat → Except Unit Unit × List Packet

/-- io::ErrorKind values produced by src/lib.rs. -/
inductive IoErr
  | invalidData
  | connAborted
  | otherErr
  deriving DecidableEq

/-- How one command iteration of `MysqlIntermediary::run` ends. -/
inductive StepOutcome
  | cont
  | quit
  | fail (e : IoErr)
  | failBackend
  deriving DecidableEq

/-- The result of one command iteration. -/
structure StepOut where
  events : List Event
  stmts : List (Nat × StatementData)
  outcome : StepOutcome
  deriving DecidableEq

/-- Lift a backend result to a step outcome (`?` propagation of a backend
error out of the loop). -/
def outcomeOfBackend : Except Unit Unit → StepOutcome
  | .ok _ => .cont
  | .error _ => .failBackend

/-- The column answered for `SELECT @@max_allowed_packet`
(src/lib.rs:397-402). -/
def maxAllowedPacketColumn : Column :=
  { table := "", column := "@@max_allowed_packet",
    coltype := .MYSQL_TYPE_LONG, colflags := UNSIGNED_FLAG }

/-- The placeholder column answered for FIELD_LIST (src/lib.rs:474-479). -/
def notImplementedColumn : Column :=
  { table := "", column := "not implemented",
    coltype := .MYSQL_TYPE_SHORT, colflags := UNSIGNED_FLAG }

/-- One iteration of the command loop: the dispatch on a parsed command,
translated from the `match cmd` of `MysqlIntermediary::run`
(src/lib.rs:390-498).  EXECUTE parsing (params.rs) is modelled eagerly from
spec section 4.4: the bound-types replacement happens with the parse. -/
def stepCommand (shim : Shim) (stmts : List (Nat × StatementData)) : Command → StepOut
  | .query q =>
    if bSelectAtAt.isPrefixOf q || bselectAtAt.isPrefixOf q then
      if q.drop 9 = bMaxAllowedPacket then
        { events := [.wrote (.resultSet [maxAllowedPacketColumn] [[67108864]])],
          stmts := stmts, outcome := .cont }
      else
        { events := [.wrote (.completed 0 0)], stmts := stmts, outcome := .cont }
    else if bUSE.isPrefixOf q || buse.isPrefixOf q then
      match utf8Decode (q.drop 4) with
      | none => { events := [], stmts := stmts, outcome := .fail .invalidData }
      | some cps =>
        let r := shim.onInit (useSchema cps)
        { events := .calledOnInit (useSchema cps) :: r.2.map .wrote,
          stmts := stmts, outcome := outcomeOfBackend r.1 }
    else
      match utf8Decode q with
      | none => { events := [], stmts := stmts, outcome := .fail .invalidData }
      | some cps =>
        let r := shim.onQuery cps
        { events := .calledOnQuery cps :: r.2.map .wrote,
          stmts := stmts, outcome := outcomeOfBackend r.1 }
  | .prepare q =>
    match utf8Decode q with
    | none => { events := [], stmts := stmts, outcome := .fail .invalidData }
    | some cps =>
      match shim.onPrepare cps with
      | (.ok (some (id, pc)), pkts) =>
        { events := .calledOnPrepare cps :: pkts.map .wrote,
          stmts := alInsert stmts id { long_data := [], bound_types := [], params := pc },
          outcome := .cont }
      | (.ok none, pkts) =>
        { events := .calledOnPrepare cps :: pkts.map .wrote,
          stmts := stmts, outcome := .cont }
      | (.error _, pkts) =>
        { events := .calledOnPrepare cps :: pkts.map .wrote,
          stmts := stmts, outcome := .failBackend }
  | .execute stmt payload =>
    match alLookup stmts stmt with
    | none => { events := [], stmts := stmts, outcome := .fail .invalidData }
    | some st =>
      let pr := parseParams st.params st.bound_types st.long_data payload
      let st1 : StatementData :=
        match pr with
        | .ok (_, types) => { st with bound_types := types }
        | .error _ => st
      match shim.onExecute stmt pr with
      | (.ok _, pkts) =>
        { events := .calledOnExecute stmt pr :: pkts.map .wrote,
          stmts := alInsert stmts stmt { st1 with long_data := [] },
          outcome := .cont }
      | (.error _, pkts) =>
        { events := .calledOnExecute stmt pr :: pkts.map .wrote,
          stmts := alInsert stmts stmt st1,
          outcome := .failBackend }
  | .sendLongData stmt param data =>
    match alLookup stmts stmt with
    | none => { events := [], stmts := stmts, outcome := .fail .invalidData }
    | some st =>
      { events := [],
        stmts := alInsert stmts stmt { st with long_data := ldExtend st.long_data param data },
        outcome := .cont }
  | .close stmt =>
    { events := [.calledOnClose stmt], stmts := alRemove stmts stmt, outcome := .cont }
  | .listFields _ =>
    { events := [.wrote (.columnDefs [notImplementedColumn])],
      stmts := stmts, outcome := .cont }
  | .init schema =>
    match utf8Decode schema with
    | none => { events := [], stmts := stmts, outcome := .fail .invalidData }
    | some cps =>
      let r := shim.onInit cps
      { events := .calledOnInit cps :: r.2.map .wrote,
        stmts := stmts, outcome := outcomeOfBackend r.1 }
  | .ping => { events := [.wrote (.ok 0 0)], stmts := stmts, outcome := .cont }
  | .quit => { events := [], stmts := stmts, outcome := .quit }

/-- How the command loop ends when it does not end cleanly. -/
inductive RunErr
  | io (e : IoErr)
  | backend
  deriving DecidableEq

/-- The command loop of `MysqlIntermediary::run` (src/lib.rs:383-502) over a
list of parsed inbound commands: an error outcome propagates out of the loop
via `?` and no further command is processed; QUIT and end-of-stream end the
loop cleanly. -/
def runLoop (shim : Shim) : List (Nat × StatementData) → List Command →
    List Event × Except RunErr Unit
  | _, [] => ([], .ok ())
  | stmts, c :: rest =>
    let out := stepCommand shim stmts c
    match out.outcome with
    | .cont =>
      let r := runLoop shim out.stmts rest
      (out.events ++ r.1, r.2)
    | .quit => (out.events, .ok ())
    | .fail e => (out.events, .error (.io e))
    | .failBackend => (out.events, .error .backend)

/-- The default on_init implementation of the `MysqlShim` trait
(src/lib.rs:182-184): it returns `Ok(())` and never touches its
`InitWriter`, so it writes no packet. -/
def defaultOnInit : List Nat → Except Unit Unit × List Packet :=
  fun _ => (.ok (), [])

/-- A backend whose callbacks all succeed without writing, with the trait's
default on_init. -/
def trivialShim : Shim :=
  { onQuery := fun _ => (.ok (), []),
    onPrepare := fun _ => (.ok none, []),
    onExecute := fun _ _ => (.ok (), []),
    onInit := defaultOnInit }

/-- Whether an event is an ERR packet written to the client. -/
def isErrPacketEvent : Event → Bool
  | .wrote (.err _ _) => true
  | _ => false

/-- Whether any ERR packet was written. -/
def hasErrPacket (evs : List Event) : Bool := evs.any isErrPacketEvent

/-- Whether an event is an OK packet written to the client. -/
def isOkPacketEvent : Event → Bool
  | .wrote (.ok _ _) => true
  | _ => false

/-- Whether any OK packet was written. -/
def hasOkPacket (evs : List Event) : Bool := evs.any isOkPacketEvent

/-- Whether an event is an on_query invocation. -/
def isQueryCallEvent : Event → Bool
  | .calledOnQuery _ => true
  | _ => false

/-- Whether on_query was invoked. -/
def hasQueryCall (evs : List Event) : Bool := evs.any isQueryCallEvent

/-- TLS configuration as far as the handshake decisions read it
(`TlsConfig` lives in code not under src; modelled from spec section 6:
only `require_tls` feeds the init decisions of src/lib.rs:361-364). -/
structure TlsConfigModel where
  require_tls : Bool
  deriving DecidableEq

/-- How `MysqlIntermediary::init` ends. -/
inductive InitOutcome
  | ok
  | tlsProceed
  | errInvalidData
  | errOther
  | assertFailed
  deriving DecidableEq

/-- The handshake decision structure of `MysqlIntermediary::init`
(src/lib.rs:251-381).  Inputs: the backend's TLS configuration, whether the
parsed client handshake has the CLIENT_SSL capability bit, and how many bytes
the packet reader has buffered past the first handshake packet
(`self.reader.remaining()`; packet.rs is not under src, so the buffered count
is taken as an input).  The SSL path first runs
`assert!(self.reader.remaining() == 0)` (src/lib.rs:313): with buffered bytes
present the connection panics before any TLS switch; with none it switches to
TLS and proceeds to the second handshake (outcome `tlsProceed`, where the
modelling stops).  A non-SSL client against a `require_tls` configuration is
sent ER_ACCESS_DENIED_ERROR and the handshake fails. -/
def initHandshake (cfg : Option TlsConfigModel) (clientSsl : Bool) (remaining : Nat) :
    List Event × InitOutcome :=
  let greet := Event.wrote (Packet.greeting cfg.isSome)
  if clientSsl then
    match cfg with
    | none => ([greet], .errInvalidData)
    | some _ =>
      if remaining = 0 then ([greet, Event.switchedToTls], .tlsProceed)
      else ([greet], .assertFailed)
  else
    if (match cfg with | some conf => conf.require_tls | none => false) then
      ([greet,
        Event.wrote (Packet.err ErrorKind.ER_ACCESS_DENIED_ERROR
          "please connect with SSL enabled")], .errOther)
    else
      ([greet, Event.wrote (Packet.ok 0 0)], .ok)

/-- State of `tls::BufReader` (src/tls.rs:76-117): the optional
`Cursor<Vec<u8>>` of replaced bytes as (backing vector, cursor position), and
the bytes the underlying stream will deliver. -/
structure BufState where
  replaced : Option (List Nat × Nat)
  inner : List Nat
  deriving DecidableEq

/-- `BufReader::replace` (src/tls.rs:89-100): with a live cursor, the new
data is prepended to the backing vector and the cursor position is kept;
otherwise a fresh cursor over the data is installed. -/
def bufReplace (st : BufState) (data : List Nat) : BufState :=
  match st.replaced with
  | some (v, pos) => { st with replaced := some (data ++ v, pos) }
  | none => { st with replaced := some (data, 0) }

/-- `Read::read` for `BufReader` (src/tls.rs:102-117) with a buffer of `n`
bytes: the cursor delivers `min n remaining` bytes; if that is zero the
cursor is dropped and the underlying stream is read instead. -/
def bufRead (st : BufState) (n : Nat) : List Nat × BufState :=
  match st.replaced with
  | some (v, pos) =>
    let i := min n (v.length - pos)
    if i = 0 then
      (st.inner.take n, { replaced := none, inner := st.inner.drop n })
    else
      ((v.drop pos).take i, { st with replaced := some (v, pos + i) })
  | none => (st.inner.take n, { st with inner := st.inner.drop n })

/-- A sequence of reads with the given buffer sizes; returns the
concatenation of everything delivered. -/
def bufReadMany : BufState → List Nat → List Nat × BufState
  | st, [] => ([], st)
  | st, n :: ns =>
    let p := bufRead st n
    let q := bufReadMany p.2 ns
    (p.1 ++ q.1, q.2)

/-- The bytes a reader state has yet to deliver: the unread part of the
replaced buffer, then the underlying stream. -/
def bufPending (st : BufState) : List Nat :=
  match st.replaced with
  | some (v, pos) => v.drop pos ++ st.inner
  | none => st.inner

/-! Helper lemmas. -/

theorem alLookup_alInsert {α : Type} (l : List (Nat × α)) (k : Nat) (v : α) :
    alLookup (alInsert l k v) k = some v := by
  induction l with
  | nil => simp [alInsert, alLookup]
  | cons p t ih =>
    obtain ⟨k1, v1⟩ := p
    by_cases h : k1 = k
    · simp [alInsert, alLookup, h]
    · simp [alInsert, alLookup, h, ih]

theorem exists_append_of_isPrefixOf {l₁ l₂ : List Nat} (h : l₁.isPrefixOf l₂ = true) :
    ∃ t, l₂ = l₁ ++ t := by
  induction l₁ generalizing l₂ with
  | nil => exact ⟨l₂, rfl⟩
  | cons a as ih =>
    cases l₂ with
    | nil => simp [List.isPrefixOf] at h
    | cons b bs =>
      simp [List.isPrefixOf] at h
      obtain ⟨t, ht⟩ := h.2
      refine ⟨t, ?_⟩
      rw [h.1, ← ht]
      rfl

theorem utf8DecodeOne_ascii {b : Nat} (r : List Nat) (hb : b < 128) :
    utf8DecodeOne (b :: r) = some (b, r) := by
  simp [utf8DecodeOne, hb]

theorem utf8Decode_ascii_cons {b : Nat} (r : List Nat) (hb : b < 128) :
    utf8Decode (b :: r) = (utf8Decode r).map (fun cs => b :: cs) := by
  show utf8DecodeAux (b :: r).length (b :: r) = _
  rw [List.length_cons, utf8DecodeAux, utf8DecodeOne_ascii r hb]
  rfl

theorem hasQueryCall_wrote_map (pkts : List Packet) :
    hasQueryCall (pkts.map .wrote) = false := by
  induction pkts with
  | nil => rfl
  | cons p ps ih => simp_all [hasQueryCall, isQueryCallEvent]

theorem utf8Decode_append_ascii_none {a : Nat} (ha : a < 128) (t : List Nat) :
    utf8Decode (a :: t) = none ↔ utf8Decode t = none := by
  rw [utf8Decode_ascii_cons t ha, Option.map_eq_none']

theorem utf8Decode_ascii_prefix_none (pre t : List Nat) (hpre : ∀ a ∈ pre, a < 128) :
    utf8Decode (pre ++ t) = none ↔ utf8Decode t = none := by
  induction pre with
  | nil => exact Iff.rfl
  | cons a as ih =>
    rw [List.cons_append, utf8Decode_append_ascii_none (hpre a (by simp)),
      ih (fun x hx => hpre x (by simp [hx]))]

theorem parseParams_types_of_flag_false (pc : Nat) (bt : List (ColumnType × Bool))
    (ld : List (Nat × List Nat)) (bs : List Nat) (vals : List ParamValue)
    (types : List (ColumnType × Bool))
    (hok : parseParams pc bt ld bs = .ok (vals, types))
    (hflag : newParamsBound pc bs = false) : types = bt := by
  rcases bs with _ | ⟨f, bs⟩
  · simp [parseParams] at hok
  rcases bs with _ | ⟨a, bs⟩
  · simp [parseParams] at hok
  rcases bs with _ | ⟨b, bs⟩
  · simp [parseParams] at hok
  rcases bs with _ | ⟨c, bs⟩
  · simp [parseParams] at hok
  rcases bs with _ | ⟨d, rest⟩
  · simp [parseParams] at hok
  have hdz : (f :: a :: b :: c :: d :: rest).drop (5 + (pc + 7) / 8) =
      rest.drop ((pc + 7) / 8) := by
    rw [← List.drop_drop]
    rfl
  rw [newParamsBound, hdz] at hflag
  rw [parseParams] at hok
  by_cases hiter : a + 256 * b + 65536 * c + 16777216 * d ≠ 1
  · rw [if_pos hiter] at hok
    exact absurd hok (by simp)
  rw [if_neg hiter] at hok
  cases hdrop : rest.drop ((pc + 7) / 8) with
  | nil =>
    rw [hdrop] at hok
    exact absurd hok (by simp)
  | cons npb rest2 =>
    rw [hdrop] at hok hflag
    simp only [List.head?] at hflag
    dsimp only at hok
    rw [if_neg (by simp [hflag])] at hok
    by_cases hmt : pc ≠ 0 ∧ bt = []
    · rw [if_pos hmt] at hok
      exact absurd hok (by simp)
    rw [if_neg hmt] at hok
    cases hdec : decodeParams ld (rest.take ((pc + 7) / 8)) bt 0 rest2 with
    | ok p =>
      rw [hdec] at hok
      obtain ⟨vs, r2⟩ := p
      simp only [Except.ok.injEq, Prod.mk.injEq] at hok
      exact hok.2.symm
    | error e =>
      rw [hdec] at hok
      exact absurd hok (by simp)

theorem bufRead_pending (st : BufState) (n : Nat) (hn : 0 < n) :
    (bufRead st n).1 ++ bufPending (bufRead st n).2 = bufPending st := by
  rcases st with ⟨rep, inner⟩
  rcases rep with _ | ⟨v, pos⟩
  · simp [bufRead, bufPending]
  · simp only [bufRead]
    by_cases hi : min n (v.length - pos) = 0
    · have hvp : v.length ≤ pos := by omega
      have hdrop : v.drop pos = [] := List.drop_eq_nil_of_le hvp
      rw [if_pos hi]
      simp [bufPending, hdrop]
    · rw [if_neg hi]
      simp only [bufPending]
      rw [show v.drop (pos + min n (v.length - pos)) =
          (v.drop pos).drop (min n (v.length - pos)) from by rw [List.drop_drop],
        ← List.append_assoc, List.take_append_drop]

theorem bufRead_pos_length (st : BufState) (n : Nat) (hn : 0 < n)
    (hp : bufPending st ≠ []) : 0 < (bufRead st n).1.length := by
  rcases st with ⟨rep, inner⟩
  rcases rep with _ | ⟨v, pos⟩
  · simp only [bufPending] at hp
    have : 0 < inner.length := List.length_pos.mpr hp
    simp only [bufRead, List.length_take]
    omega
  · simp only [bufRead]
    by_cases hi : min n (v.length - pos) = 0
    · have hvp : v.length ≤ pos := by omega
      have hdrop : v.drop pos = [] := List.drop_eq_nil_of_le hvp
      simp only [bufPending, hdrop, List.nil_append] at hp
      have : 0 < inner.length := List.length_pos.mpr hp
      rw [if_pos hi]
      simp only [List.length_take]
      omega
    · rw [if_neg hi]
      simp only [List.length_take, List.length_drop]
      omega

theorem bufReadMany_pending (ns : List Nat) :
    ∀ st : BufState, (∀ n ∈ ns, 0 < n) →
      (bufReadMany st ns).1 ++ bufPending (bufReadMany st ns).2 = bufPending st := by
  induction ns with
  | nil => intro st _; simp [bufReadMany]
  | cons n ns ih =>
    intro st hpos
    have hn : 0 < n := hpos n (by simp)
    have hrest : ∀ m ∈ ns, 0 < m := fun m hm => hpos m (by simp [hm])
    simp only [bufReadMany]
    rw [List.append_assoc, ih (bufRead st n).2 hrest, bufRead_pending st n hn]

theorem bufReadMany_drains (ns : List Nat) :
    ∀ st : BufState, (∀ n ∈ ns, 0 < n) → (bufPending st).length ≤ ns.length →
      (bufReadMany st ns).1 = bufPending st := by
  induction ns with
  | nil =>
    intro st _ hlen
    have hnil : bufPending st = [] := List.length_eq_zero.mp (by simpa using hlen)
    simp [bufReadMany, hnil]
  | cons n ns ih =>
    intro st hpos hlen
    have hn : 0 < n := hpos n (by simp)
    have hrest : ∀ m ∈ ns, 0 < m := fun m hm => hpos m (by simp [hm])
    have hA := bufRead_pending st n hn
    by_cases hpe : bufPending st = []
    · have h1 : (bufRead st n).1 = [] ∧ bufPending (bufRead st n).2 = [] :=
        List.append_eq_nil.mp (by rw [hA, hpe])
      simp only [bufReadMany]
      rw [ih (bufRead st n).2 hrest (by rw [h1.2]; simp), h1.1, h1.2, hpe]
      rfl
    · have hB := bufRead_pos_length st n hn hpe
      have hlenA := congrArg List.length hA
      rw [List.length_append] at hlenA
      rw [List.length_cons] at hlen
      have hlen2 : (bufPending (bufRead st n).2).length ≤ ns.length := by omega
      simp only [bufReadMany]
      rw [ih (bufRead st n).2 hrest hlen2]
      exact hA

/-! Theorems for the claims. -/

/-- C1 (code bug): the spec's critical invariant says bytes the plaintext
reader has already buffered past the first handshake packet are prepended to
the TLS transport's input so the TLS handshake completes on them.  The code
instead runs `assert!(self.reader.remaining() == 0)` (src/lib.rs:313): with
any buffered byte present the SSL path panics before the TLS switch, and
`SwitchableConn::replace` (src/tls.rs:68-73) is never invoked from
`MysqlIntermediary::init`.  At any buffered count k+1 the handshake aborts. -/
theorem init_tls_with_buffered_bytes_panics (rt : Bool) (k : Nat) :
    initHandshake (some ⟨rt⟩) true (k + 1) =
      ([Event.wrote (Packet.greeting true)], InitOutcome.assertFailed) := rfl

/-- C2 counterexample: a CLOSE removes statement 5, the following EXECUTE on
id 5 makes the loop return an InvalidData error: no ERR packet is written
and the subsequent PING is never processed (no OK packet either), so the
claim that an ERR is reported and the connection continues is false here. -/
theorem execute_unknown_statement_counterexample :
    runLoop trivialShim [(5, ⟨[], [], 0⟩)] [.close 5, .execute 5 [], .ping] =
      ([Event.calledOnClose 5], .error (.io .invalidData)) ∧
    hasErrPacket [Event.calledOnClose 5] = false ∧
    hasOkPacket [Event.calledOnClose 5] = false := by decide

/-- C2 (amended): an EXECUTE whose statement id is not in the statement
table makes the intermediary fail with an InvalidData io error that
propagates out of the command loop; no ERR packet is sent to the client and
no subsequent command is processed. -/
theorem execute_unknown_statement_fails_loop (shim : Shim)
    (stmts : List (Nat × StatementData)) (stmt : Nat) (payload : List Nat)
    (rest : List Command) (h : alLookup stmts stmt = none) :
    runLoop shim stmts (.execute stmt payload :: rest) =
      ([], .error (.io .invalidData)) := by
  simp [runLoop, stepCommand, h]

/-- C2 witness. -/
theorem execute_unknown_statement_fails_loop_witness :
    alLookup ([] : List (Nat × StatementData)) 5 = none ∧
    runLoop trivialShim [] [.execute 5 [], .ping] = ([], .error (.io .invalidData)) :=
  ⟨by decide, execute_unknown_statement_fails_loop trivialShim [] 5 [] [.ping] (by decide)⟩

/-- C4: a QUERY whose text is exactly "SELECT @@max_allowed_packet" is
answered without invoking the backend, with a result set of the single
UNSIGNED LONG column and the single row value 67108864, for every backend
and statement-table state (src/lib.rs:391-406). -/
theorem select_max_allowed_packet_intercepted (shim : Shim)
    (stmts : List (Nat × StatementData)) :
    stepCommand shim stmts (.query (bSelectAtAt ++ bMaxAllowedPacket)) =
      { events := [.wrote (.resultSet [maxAllowedPacketColumn] [[67108864]])],
        stmts := stmts, outcome := .cont } := rfl

/-- C6 counterexample: when the client requests SSL and the backend provided
no TLS configuration, the handshake fails with InvalidData without writing
any packet — in particular no ACCESS_DENIED ERR packet is sent, contrary to
the claim that one is sent in both rejection cases (src/lib.rs:305-311). -/
theorem tls_missing_config_counterexample :
    initHandshake none true 0 =
      ([Event.wrote (Packet.greeting false)], .errInvalidData) ∧
    hasErrPacket (initHandshake none true 0).1 = false := by decide

/-- C6 (amended): if the client requests SSL and no TLS configuration was
provided, init fails with an InvalidData error and writes nothing past the
greeting; if the configuration has require_tls set and the client did not
request SSL, the server writes the ER_ACCESS_DENIED_ERROR packet and init
fails.  The connection closes in both cases, but only the second sends
ACCESS_DENIED (src/lib.rs:305-311 and 361-374). -/
theorem tls_rejection_paths (r1 r2 : Nat) :
    initHandshake none true r1 =
      ([Event.wrote (Packet.greeting false)], .errInvalidData) ∧
    initHandshake (some ⟨true⟩) false r2 =
      ([Event.wrote (Packet.greeting true),
        Event.wrote (Packet.err .ER_ACCESS_DENIED_ERROR
          "please connect with SSL enabled")], .errOther) := ⟨rfl, rfl⟩

/-- C8 counterexample: driving an INIT_DB command through the loop with a
backend whose on_init is the trait's default, the complete response contains
no OK packet — the default does not reply OK to the client
(src/lib.rs:182-184). -/
theorem default_on_init_counterexample :
    runLoop trivialShim [] [Command.init [97]] =
      ([Event.calledOnInit [97]], .ok ()) ∧
    hasOkPacket (runLoop trivialShim [] [Command.init [97]]).1 = false := by decide

/-- C8 (amended): the default on_init implementation returns success without
using its InitWriter, so a backend with the default on_init responds to an
INIT_DB command with no packet at all; replying OK is left to implementations
that call the writer. -/
theorem default_on_init_writes_nothing (shim : Shim)
    (stmts : List (Nat × StatementData)) (s cps : List Nat)
    (h1 : shim.onInit = defaultOnInit) (h2 : utf8Decode s = some cps) :
    runLoop shim stmts [Command.init s] = ([Event.calledOnInit cps], .ok ()) ∧
    hasOkPacket (runLoop shim stmts [Command.init s]).1 = false := by
  simp [runLoop, stepCommand, h1, h2, defaultOnInit, outcomeOfBackend, hasOkPacket,
    isOkPacketEvent]

/-- C3: for an EXECUTE on a known statement id whose backend callback
returns successfully, the statement's long_data is empty afterwards
(`state.long_data.clear()`, src/lib.rs:452), and its bound_types are
unchanged unless the EXECUTE payload had the new-params-bound flag set. -/
theorem execute_clears_long_data (shim : Shim) (stmts : List (Nat × StatementData))
    (stmt : Nat) (payload : List Nat) (st : StatementData)
    (h1 : alLookup stmts stmt = some st)
    (h2 : (shim.onExecute stmt
        (parseParams st.params st.bound_types st.long_data payload)).1 = .ok ()) :
    ∃ st2, alLookup (stepCommand shim stmts (.execute stmt payload)).stmts stmt = some st2 ∧
      st2.long_data = [] ∧
      (newParamsBound st.params payload = false → st2.bound_types = st.bound_types) := by
  rcases hE : shim.onExecute stmt (parseParams st.params st.bound_types st.long_data payload)
    with ⟨r, pkts⟩
  rw [hE] at h2
  dsimp only at h2
  subst h2
  simp only [stepCommand, h1, hE]
  rcases hpr : parseParams st.params st.bound_types st.long_data payload
    with e | ⟨vals, types⟩
  · exact ⟨_, alLookup_alInsert _ _ _, rfl, fun _ => rfl⟩
  · refine ⟨_, alLookup_alInsert _ _ _, rfl, fun hflag => ?_⟩
    exact parseParams_types_of_flag_false st.params st.bound_types st.long_data payload
      vals types hpr hflag

/-- C3 witness. -/
theorem execute_clears_long_data_witness :
    alLookup [(7, (⟨[(0, [1, 2])], [(.MYSQL_TYPE_LONG, false)], 1⟩ : StatementData))] 7 =
      some ⟨[(0, [1, 2])], [(.MYSQL_TYPE_LONG, false)], 1⟩ ∧
    (trivialShim.onExecute 7 (parseParams 1 [(.MYSQL_TYPE_LONG, false)] [(0, [1, 2])]
      [0, 1, 0, 0, 0, 1, 0])).1 = .ok () ∧
    (∃ st2, alLookup (stepCommand trivialShim
        [(7, (⟨[(0, [1, 2])], [(.MYSQL_TYPE_LONG, false)], 1⟩ : StatementData))]
        (.execute 7 [0, 1, 0, 0, 0, 1, 0])).stmts 7 = some st2 ∧
      st2.long_data = [] ∧
      (newParamsBound 1 [0, 1, 0, 0, 0, 1, 0] = false →
        st2.bound_types = [(.MYSQL_TYPE_LONG, false)])) :=
  ⟨by decide, by decide,
    execute_clears_long_data trivialShim
      [(7, ⟨[(0, [1, 2])], [(.MYSQL_TYPE_LONG, false)], 1⟩)] 7 [0, 1, 0, 0, 0, 1, 0]
      ⟨[(0, [1, 2])], [(.MYSQL_TYPE_LONG, false)], 1⟩ (by decide) (by decide)⟩

/-- C5: two SEND_LONG_DATA fragments for parameter 0 of a fresh statement
accumulate by concatenation in arrival order (src/lib.rs:454-467), and a
following EXECUTE with new-params-bound set and type BLOB presents the
backend with the concatenated bytes as the parameter value. -/
theorem send_long_data_concatenated (shim : Shim) (stmts : List (Nat × StatementData))
    (stmt : Nat) (st : StatementData) (d1 d2 : List Nat)
    (h1 : alLookup stmts stmt = some st) (h2 : st.params = 1) (h3 : st.long_data = []) :
    (∃ st2, alLookup (stepCommand shim
        (stepCommand shim stmts (.sendLongData stmt 0 d1)).stmts
        (.sendLongData stmt 0 d2)).stmts stmt = some st2 ∧
      st2.long_data = [(0, d1 ++ d2)]) ∧
    (stepCommand shim (stepCommand shim
        (stepCommand shim stmts (.sendLongData stmt 0 d1)).stmts
        (.sendLongData stmt 0 d2)).stmts
        (.execute stmt [0, 1, 0, 0, 0, 0, 1, 252, 0])).events.head? =
      some (.calledOnExecute stmt (.ok ([.bytes .MYSQL_TYPE_BLOB (d1 ++ d2)],
        [(.MYSQL_TYPE_BLOB, false)]))) := by
  have e1 : stepCommand shim stmts (.sendLongData stmt 0 d1) =
      ⟨[], alInsert stmts stmt { st with long_data := [(0, d1)] }, .cont⟩ := by
    simp [stepCommand, h1, ldExtend, h3, alLookup]
  have e2 : stepCommand shim (alInsert stmts stmt { st with long_data := [(0, d1)] })
      (.sendLongData stmt 0 d2) =
      ⟨[], alInsert (alInsert stmts stmt { st with long_data := [(0, d1)] }) stmt
        { st with long_data := [(0, d1 ++ d2)] }, .cont⟩ := by
    simp [stepCommand, alLookup_alInsert, ldExtend, alLookup, alInsert]
  rw [e1]
  dsimp only
  rw [e2]
  dsimp only
  have hlook : alLookup (alInsert (alInsert stmts stmt { st with long_data := [(0, d1)] })
      stmt { st with long_data := [(0, d1 ++ d2)] }) stmt =
      some { st with long_data := [(0, d1 ++ d2)] } := alLookup_alInsert _ _ _
  constructor
  · exact ⟨_, hlook, rfl⟩
  · simp only [stepCommand, hlook]
    have hpr : parseParams ({ st with long_data := [(0, d1 ++ d2)] } : StatementData).params
        ({ st with long_data := [(0, d1 ++ d2)] } : StatementData).bound_types
        ({ st with long_data := [(0, d1 ++ d2)] } : StatementData).long_data
        [0, 1, 0, 0, 0, 0, 1, 252, 0] =
        .ok ([.bytes .MYSQL_TYPE_BLOB (d1 ++ d2)], [(.MYSQL_TYPE_BLOB, false)]) := by
      show parseParams st.params st.bound_types [(0, d1 ++ d2)] _ = _
      rw [h2]
      rfl
    rw [hpr]
    rcases shim.onExecute stmt (.ok ([.bytes .MYSQL_TYPE_BLOB (d1 ++ d2)],
      [(.MYSQL_TYPE_BLOB, false)])) with ⟨r, pkts⟩
    cases r <;> rfl

/-- C5 witness: fragments "hello " and "world" yield parameter bytes
"hello world". -/
theorem send_long_data_concatenated_witness :
    (alLookup [(1, (⟨[], [], 1⟩ : StatementData))] 1 = some ⟨[], [], 1⟩ ∧
      (⟨[], [], 1⟩ : StatementData).params = 1 ∧
      (⟨[], [], 1⟩ : StatementData).long_data = []) ∧
    ((∃ st2, alLookup (stepCommand trivialShim
        (stepCommand trivialShim [(1, ⟨[], [], 1⟩)]
          (.sendLongData 1 0 [104, 101, 108, 108, 111, 32])).stmts
        (.sendLongData 1 0 [119, 111, 114, 108, 100])).stmts 1 = some st2 ∧
      st2.long_data = [(0, [104, 101, 108, 108, 111, 32] ++ [119, 111, 114, 108, 100])]) ∧
    (stepCommand trivialShim (stepCommand trivialShim
        (stepCommand trivialShim [(1, ⟨[], [], 1⟩)]
          (.sendLongData 1 0 [104, 101, 108, 108, 111, 32])).stmts
        (.sendLongData 1 0 [119, 111, 114, 108, 100])).stmts
        (.execute 1 [0, 1, 0, 0, 0, 0, 1, 252, 0])).events.head? =
      some (.calledOnExecute 1 (.ok ([.bytes .MYSQL_TYPE_BLOB
        ([104, 101, 108, 108, 111, 32] ++ [119, 111, 114, 108, 100])],
        [(.MYSQL_TYPE_BLOB, false)])))) ∧
    [104, 101, 108, 108, 111, 32] ++ [119, 111, 114, 108, 100] =
      [104, 101, 108, 108, 111, 32, 119, 111, 114, 108, 100] :=
  ⟨⟨by decide, by decide, by decide⟩,
    send_long_data_concatenated trivialShim [(1, ⟨[], [], 1⟩)] 1 ⟨[], [], 1⟩
      [104, 101, 108, 108, 111, 32] [119, 111, 114, 108, 100]
      (by decide) (by decide) (by decide),
    by decide⟩

/-- C7: a QUERY starting with the bytes of "USE " or "use " whose remainder
decodes as UTF-8 invokes on_init (not on_query) with the remainder trimmed of
whitespace, trailing semicolons and surrounding backquotes
(src/lib.rs:411-418). -/
theorem use_query_calls_on_init (shim : Shim) (stmts : List (Nat × StatementData))
    (q cps : List Nat)
    (hpre : bUSE.isPrefixOf q = true ∨ buse.isPrefixOf q = true)
    (hdec : utf8Decode (q.drop 4) = some cps) :
    (stepCommand shim stmts (.query q)).events.head? =
      some (.calledOnInit (useSchema cps)) ∧
    hasQueryCall (stepCommand shim stmts (.query q)).events = false := by
  rcases hpre with h | h
  · obtain ⟨t, rfl⟩ := exists_append_of_isPrefixOf h
    have hc1 : (bSelectAtAt.isPrefixOf (bUSE ++ t) ||
        bselectAtAt.isPrefixOf (bUSE ++ t)) = false := rfl
    have hc2 : (bUSE.isPrefixOf (bUSE ++ t) || buse.isPrefixOf (bUSE ++ t)) = true := by
      simp
    simp only [stepCommand, hc1, hc2, Bool.false_eq_true, if_false, if_true, hdec]
    exact ⟨rfl, by simp [hasQueryCall, isQueryCallEvent, hasQueryCall_wrote_map]⟩
  · obtain ⟨t, rfl⟩ := exists_append_of_isPrefixOf h
    have hc1 : (bSelectAtAt.isPrefixOf (buse ++ t) ||
        bselectAtAt.isPrefixOf (buse ++ t)) = false := rfl
    have hc2 : (bUSE.isPrefixOf (buse ++ t) || buse.isPrefixOf (buse ++ t)) = true := by
      simp
    simp only [stepCommand, hc1, hc2, Bool.false_eq_true, if_false, if_true, hdec]
    exact ⟨rfl, by simp [hasQueryCall, isQueryCallEvent, hasQueryCall_wrote_map]⟩

/-- C7 witness: "USE accounts;" reaches on_init as "accounts". -/
theorem use_query_calls_on_init_witness :
    (bUSE.isPrefixOf [85, 83, 69, 32, 97, 99, 99, 111, 117, 110, 116, 115, 59] = true ∨
      buse.isPrefixOf [85, 83, 69, 32, 97, 99, 99, 111, 117, 110, 116, 115, 59] = true) ∧
    utf8Decode ([85, 83, 69, 32, 97, 99, 99, 111, 117, 110, 116, 115, 59].drop 4) =
      some [97, 99, 99, 111, 117, 110, 116, 115, 59] ∧
    useSchema [97, 99, 99, 111, 117, 110, 116, 115, 59] =
      [97, 99, 99, 111, 117, 110, 116, 115] ∧
    ((stepCommand trivialShim []
        (.query [85, 83, 69, 32, 97, 99, 99, 111, 117, 110, 116, 115, 59])).events.head? =
      some (.calledOnInit (useSchema [97, 99, 99, 111, 117, 110, 116, 115, 59])) ∧
    hasQueryCall (stepCommand trivialShim []
        (.query [85, 83, 69, 32, 97, 99, 99, 111, 117, 110, 116, 115, 59])).events = false) :=
  ⟨Or.inl (by decide), by decide, by decide,
    use_query_calls_on_init trivialShim []
      [85, 83, 69, 32, 97, 99, 99, 111, 117, 110, 116, 115, 59]
      [97, 99, 99, 111, 117, 110, 116, 115, 59] (Or.inl (by decide)) (by decide)⟩

/-- C9: a QUERY (not intercepted as "SELECT @@…"), a STMT_PREPARE, or an
INIT_DB whose textual payload is not valid UTF-8 makes the step fail with an
InvalidData error; no backend callback is invoked (no event is produced), so
on_query, on_prepare and on_init only ever receive valid UTF-8
(src/lib.rs:411-439 and 482-491). -/
theorem non_utf8_rejected_before_callbacks (shim : Shim)
    (stmts : List (Nat × StatementData)) (q p s : List Nat)
    (hq : utf8Decode q = none)
    (hq1 : bSelectAtAt.isPrefixOf q = false) (hq2 : bselectAtAt.isPrefixOf q = false)
    (hp : utf8Decode p = none) (hs : utf8Decode s = none) :
    stepCommand shim stmts (.query q) = ⟨[], stmts, .fail .invalidData⟩ ∧
    stepCommand shim stmts (.prepare p) = ⟨[], stmts, .fail .invalidData⟩ ∧
    stepCommand shim stmts (.init s) = ⟨[], stmts, .fail .invalidData⟩ := by
  refine ⟨?_, by simp [stepCommand, hp], by simp [stepCommand, hs]⟩
  cases hu : (bUSE.isPrefixOf q || buse.isPrefixOf q) with
  | false => simp [stepCommand, hq1, hq2, hu, hq]
  | true =>
    have hu2 := hu
    rw [Bool.or_eq_true] at hu2
    rcases hu2 with h | h
    · obtain ⟨t, rfl⟩ := exists_append_of_isPrefixOf h
      have ht : utf8Decode t = none :=
        (utf8Decode_ascii_prefix_none bUSE t (by decide)).mp hq
      have hd : (bUSE ++ t).drop 4 = t := rfl
      simp [stepCommand, hq1, hq2, hu, hd, ht]
    · obtain ⟨t, rfl⟩ := exists_append_of_isPrefixOf h
      have ht : utf8Decode t = none :=
        (utf8Decode_ascii_prefix_none buse t (by decide)).mp hq
      have hd : (buse ++ t).drop 4 = t := rfl
      simp [stepCommand, hq1, hq2, hu, hd, ht]

/-- C9 witness: the byte 0xFF is not valid UTF-8. -/
theorem non_utf8_rejected_before_callbacks_witness :
    (utf8Decode [255] = none ∧ bSelectAtAt.isPrefixOf [255] = false ∧
      bselectAtAt.isPrefixOf [255] = false) ∧
    (stepCommand trivialShim [] (.query [255]) = ⟨[], [], .fail .invalidData⟩ ∧
     stepCommand trivialShim [] (.prepare [255]) = ⟨[], [], .fail .invalidData⟩ ∧
     stepCommand trivialShim [] (.init [255]) = ⟨[], [], .fail .invalidData⟩) :=
  ⟨⟨by decide, by decide, by decide⟩,
    non_utf8_rejected_before_callbacks trivialShim [] [255] [255] [255]
      (by decide) (by decide) (by decide) (by decide) (by decide)⟩

/-- C10 counterexample: after replace([10,20]) and a 1-byte read (which
returns 10), a second replace([30,40]) prepends to the backing vector but
keeps the cursor position 1, so a large read returns [40,10,20] — the second
replace's bytes do not come ahead of the still-unread byte 20 (that would be
[30,40,20]), and the consumed byte 10 is redelivered.  Moreover a read with a
zero-sized buffer while replaced bytes remain silently discards them: after
replace([5]) over a stream [9], reads of sizes 0 then 1 deliver 9, not the
replaced byte 5. -/
theorem bufreader_replace_counterexample :
    (bufReadMany (bufReplace ⟨none, []⟩ [10, 20]) [1]).1 = [10] ∧
    (bufRead (bufReplace (bufReadMany (bufReplace ⟨none, []⟩ [10, 20]) [1]).2 [30, 40])
      10).1 = [40, 10, 20] ∧
    [40, 10, 20] ≠ [30, 40, 20] ∧
    (bufReadMany (bufReplace ⟨none, [9]⟩ [5]) [0, 1]).1 = [9] ∧
    [9] ≠ ([5] : List Nat) := by decide

/-- C10 (amended): for every sequence of reads each with a buffer of at
least one byte, the delivered bytes are an initial segment of the replaced
bytes followed by the underlying stream — the bytes installed by replace()
come first, in order, until that buffer is exhausted, and only then stream
bytes — and once at least replaced-length + stream-length such reads have
happened, exactly that concatenation has been delivered.  A replace() call
made while the current replaced buffer is still unread-from (cursor at
position 0) places its bytes ahead of the still-unread previously replaced
bytes.  (A read with a zero-sized buffer while replaced bytes remain instead
discards them, and a replace() after a partial read keeps the cursor
position, as the counterexample shows.) -/
theorem bufreader_read_order (v d inner data : List Nat) (ns : List Nat)
    (hpos : ∀ n ∈ ns, 0 < n) :
    (∃ rest, (bufReadMany ⟨some (d, 0), inner⟩ ns).1 ++ rest = d ++ inner) ∧
    (d.length + inner.length ≤ ns.length →
      (bufReadMany ⟨some (d, 0), inner⟩ ns).1 = d ++ inner) ∧
    bufReplace ⟨some (v, 0), inner⟩ data = ⟨some (data ++ v, 0), inner⟩ := by
  have hpend : bufPending ⟨some (d, 0), inner⟩ = d ++ inner := by
    simp [bufPending]
  refine ⟨⟨bufPending (bufReadMany ⟨some (d, 0), inner⟩ ns).2, ?_⟩, fun hlen => ?_, rfl⟩
  · rw [bufReadMany_pending ns _ hpos, hpend]
  · rw [bufReadMany_drains ns _ hpos
      (by rw [hpend, List.length_append]; exact hlen), hpend]

/-- C10 witness. -/
theorem bufreader_read_order_witness :
    (∀ n ∈ ([2, 2, 2] : List Nat), 0 < n) ∧
    ((∃ rest, (bufReadMany ⟨some ([1, 2], 0), [3]⟩ [2, 2, 2]).1 ++ rest =
        [1, 2] ++ [3]) ∧
     (([1, 2] : List Nat).length + ([3] : List Nat).length ≤
        ([2, 2, 2] : List Nat).length →
       (bufReadMany ⟨some ([1, 2], 0), [3]⟩ [2, 2, 2]).1 = [1, 2] ++ [3]) ∧
     bufReplace ⟨some ([9], 0), [3]⟩ [7, 8] = ⟨some ([7, 8] ++ [9], 0), [3]⟩) :=
  ⟨by decide, bufreader_read_order [9] [1, 2] [3] [7, 8] [2, 2, 2] (by decide)⟩

/-- C8 witness. -/
theorem default_on_init_writes_nothing_witness :
    trivialShim.onInit = defaultOnInit ∧ utf8Decode [97] = some [97] ∧
    (runLoop trivialShim [] [Command.init [97]] = ([Event.calledOnInit [97]], .ok ()) ∧
      hasOkPacket (runLoop trivialShim [] [Command.init [97]]).1 = false) :=
  ⟨rfl, by decide, default_on_init_writes_nothing trivialShim [] [97] [97] rfl (by decide)⟩

end MsqlSrv
